import Mathlib

/-!
Shallow embedding of the NES emulator core (CPU, PPU, bus, mappers) of the
repository under verification.  Machine integers (`u8`, `u16`, `usize`) are
modelled as `Nat` with explicit `% 2^w` at the points where the Rust code
wraps (`wrapping_add`, `as u8`, ...).  Rust panics (array indexing out of
bounds, explicit `panic!` arms) are modelled by `Option`: `none` is a panic.
Fixed-size Rust arrays and `Vec<u8>` are modelled as a length together with a
content function; reading or writing past the length is `none`, matching the
panic of the source.
-/

namespace Nes

/-- A `Vec<u8>` or fixed-size byte array: a length plus contents.  Indexing
out of bounds is `none`, the model of a Rust panic. -/
structure ByteVec where
  size : Nat
  data : Nat → Nat

/-- Model of `v[i]` with the bounds check of Rust indexing. -/
def ByteVec.get (v : ByteVec) (i : Nat) : Option Nat :=
  if i < v.size then some (v.data i) else none

/-- Model of `v[i] = x` with the bounds check of Rust indexing. -/
def ByteVec.set (v : ByteVec) (i x : Nat) : Option ByteVec :=
  if i < v.size then
    some ⟨v.size, fun j => if j = i then x else v.data j⟩
  else none

/-- All-`c` byte vector of a given length (`vec![c; n]`). -/
def ByteVec.fill (n c : Nat) : ByteVec := ⟨n, fun _ => c⟩

/-- Model of `rom.rs`: `enum Mirroring`. -/
inductive Mirroring where
  | vertical
  | horizontal
  | singleLower
  | singleUpper
  | fourScreen
deriving DecidableEq

/- ---------------------------------------------------------------------
ppu.rs: AddrRegister, the register bitfields, ScrollRegister, NesPPU.
--------------------------------------------------------------------- -/

/-- Model of `ppu.rs`: `AddrRegister { value: (u8, u8), hi_ptr: bool }`.
`valueHi`/`valueLo` are `value.0`/`value.1`. -/
structure AddrRegister where
  valueHi : Nat
  valueLo : Nat
  hiPtr : Bool

/-- Model of `AddrRegister::new`. -/
def AddrRegister.new : AddrRegister := ⟨0, 0, true⟩

/-- Model of `AddrRegister::get`: `((value.0 as u16) << 8) | (value.1 as u16)`. -/
def AddrRegister.get (r : AddrRegister) : Nat :=
  (r.valueHi <<< 8) ||| r.valueLo

/-- Model of `AddrRegister::set`: `value.0 = (data >> 8) as u8; value.1 = (data & 0xff) as u8`. -/
def AddrRegister.set (r : AddrRegister) (data : Nat) : AddrRegister :=
  { r with valueHi := (data >>> 8) % 256, valueLo := data &&& 0xFF }

/-- Model of `AddrRegister::update` (a 0x2006 write): write the hi or lo byte per the
latch, mirror down to 14 bits when the result exceeds 0x3FFF, flip the latch. -/
def AddrRegister.update (r : AddrRegister) (data : Nat) : AddrRegister :=
  let r := if r.hiPtr then { r with valueHi := data } else { r with valueLo := data }
  let r := if r.get > 0x3FFF then r.set (r.get &&& 0b11111111111111) else r
  { r with hiPtr := !r.hiPtr }

/-- Model of `AddrRegister::increment`: wrapping add on the low byte with carry into
the high byte, then mirror down to 14 bits. -/
def AddrRegister.increment (r : AddrRegister) (inc : Nat) : AddrRegister :=
  let lo := r.valueLo
  let r := { r with valueLo := (r.valueLo + inc) % 256 }
  let r := if lo > r.valueLo then { r with valueHi := (r.valueHi + 1) % 256 } else r
  if r.get > 0x3FFF then r.set (r.get &&& 0b11111111111111) else r

/-- Model of `AddrRegister::reset_latch`. -/
def AddrRegister.resetLatch (r : AddrRegister) : AddrRegister :=
  { r with hiPtr := true }

/-- Model of `ppu.rs`: `ScrollRegister`. -/
structure ScrollRegister where
  xVal : Nat
  yVal : Nat
  latch : Bool

/-- Model of `ScrollRegister::new`. -/
def ScrollRegister.new : ScrollRegister := ⟨0, 0, true⟩

/-- Model of `ScrollRegister::write`. -/
def ScrollRegister.write (s : ScrollRegister) (data : Nat) : ScrollRegister :=
  let s := if s.latch then { s with xVal := data } else { s with yVal := data }
  { s with latch := !s.latch }

/-- Model of `ScrollRegister::reset_latch`. -/
def ScrollRegister.resetLatch (s : ScrollRegister) : ScrollRegister :=
  { s with latch := true }

/-- Model of `StatusRegister::set_vblank_started` (bit 0x80), as insert/remove on the
status byte.  `bitflags` `remove` is `bits & !flag` on `u8`. -/
def StatusReg.setVblankStarted (s : Nat) (v : Bool) : Nat :=
  if v then s ||| 0x80 else s &&& 0x7F

/-- Model of `StatusRegister::set_sprite_zero_hit` (bit 0x40). -/
def StatusReg.setSpriteZeroHit (s : Nat) (v : Bool) : Nat :=
  if v then s ||| 0x40 else s &&& 0xBF

/-- Model of `StatusRegister::set_sprite_overflow` (bit 0x20). -/
def StatusReg.setSpriteOverflow (s : Nat) (v : Bool) : Nat :=
  if v then s ||| 0x20 else s &&& 0xDF

/-- Model of `StatusRegister::is_vblank_started`: `contains(VBLANK_STARTED)`. -/
def StatusReg.isVblankStarted (s : Nat) : Bool := s &&& 0x80 == 0x80

/-- Model of `ControlRegister::is_generate_nmi`: `contains(GENERATE_NMI)` (bit 0x80). -/
def ControlReg.isGenerateNmi (c : Nat) : Bool := c &&& 0x80 == 0x80

/-- Model of `ControlRegister::vram_addr_increment`: 1 unless `VRAM_ADD_INCREMENT`
(bit 0x04) is set, in which case 32. -/
def ControlReg.vramAddrIncrement (c : Nat) : Nat :=
  if !(c &&& 0x04 == 0x04) then 1 else 32

/-- Model of `ppu.rs`: `struct NesPPU`.  `status`, `mask`, `ctrl` hold the bitflag
bytes of `StatusRegister`, `MaskRegister`, `ControlRegister`. -/
structure NesPPU where
  chrRom : ByteVec
  paletteTable : ByteVec
  vram : ByteVec
  oamData : ByteVec
  internalDataBuf : Nat
  oamAddr : Nat
  ppuStatus : Nat
  mirroring : Mirroring
  cycles : Nat
  scanline : Nat
  triggerNmi : Bool
  addrReg : AddrRegister
  status : Nat
  scroll : ScrollRegister
  mask : Nat
  ctrl : Nat

/-- Model of `NesPPU::new(chr_rom, mirroring)`. -/
def NesPPU.new (chrRom : ByteVec) (mirroring : Mirroring) : NesPPU where
  chrRom := chrRom
  paletteTable := ByteVec.fill 32 0
  vram := ByteVec.fill 2048 0
  oamData := ByteVec.fill 256 0
  internalDataBuf := 0
  oamAddr := 0
  ppuStatus := 0
  mirroring := mirroring
  cycles := 0
  scanline := 0
  triggerNmi := false
  addrReg := AddrRegister.new
  status := 0
  scroll := ScrollRegister.new
  mask := 0
  ctrl := 0

/-- Model of `NesPPU::tick(cycles)`: add the dots; on crossing 341 advance the
scanline, raising vblank (and the NMI flag when enabled) at scanline 241 and
wrapping (clearing vblank, overflow, sprite-zero and the NMI flag) at 262.
Returns the frame-complete flag of the source. -/
def NesPPU.tick (p : NesPPU) (cycles : Nat) : NesPPU × Bool :=
  let c := p.cycles + cycles
  if c ≥ 341 then
    let p := { p with cycles := c - 341, scanline := p.scanline + 1 }
    let p :=
      if p.scanline = 241 then
        { p with
          status := StatusReg.setSpriteZeroHit (StatusReg.setVblankStarted p.status true) false
          triggerNmi := if ControlReg.isGenerateNmi p.ctrl then true else p.triggerNmi }
      else p
    if p.scanline ≥ 262 then
      ({ p with
          triggerNmi := false
          scanline := 0
          status :=
            StatusReg.setSpriteZeroHit
              (StatusReg.setSpriteOverflow (StatusReg.setVblankStarted p.status false) false)
              false }, true)
    else (p, false)
  else ({ p with cycles := c }, false)

/-- Model of `NesPPU::write_to_ppu_addr` (0x2006 write). -/
def NesPPU.writeToPpuAddr (p : NesPPU) (value : Nat) : NesPPU :=
  { p with addrReg := p.addrReg.update value }

/-- Model of `NesPPU::write_to_ctrl` (0x2000 write): update control; raise the NMI
flag on a 0→1 transition of generate-NMI during vblank. -/
def NesPPU.writeToCtrl (p : NesPPU) (value : Nat) : NesPPU :=
  let prev := ControlReg.isGenerateNmi p.ctrl
  { p with
    ctrl := value
    triggerNmi :=
      if !prev && ControlReg.isGenerateNmi value && StatusReg.isVblankStarted p.status then
        true
      else p.triggerNmi }

/-- Model of `NesPPU::increment_vram_addr`. -/
def NesPPU.incrementVramAddr (p : NesPPU) : NesPPU :=
  { p with addrReg := p.addrReg.increment (ControlReg.vramAddrIncrement p.ctrl) }

/-- Model of `NesPPU::mirror_vram_addr`: map a 0x2000–0x2FFF pointer to a physical
nametable index per the mirroring mode. -/
def NesPPU.mirrorVramAddr (p : NesPPU) (addr : Nat) : Nat :=
  let mirroredVram := addr &&& 0b10111111111111
  let vramIndex := mirroredVram - 0x2000
  let nameTable := vramIndex / 0x400
  match p.mirroring, nameTable with
  | Mirroring.vertical, 2 | Mirroring.vertical, 3 => vramIndex - 0x800
  | Mirroring.horizontal, 2 | Mirroring.horizontal, 1 => vramIndex - 0x400
  | Mirroring.horizontal, 3 => vramIndex - 0x800
  | _, _ => vramIndex

/-- Model of `NesPPU::read_data` (0x2007 read): buffered reads below 0x3F00, direct
palette reads in 0x3F00–0x3FFF; the 0x3000–0x3EFF arm panics in the source. -/
def NesPPU.readData (p : NesPPU) : Option (Nat × NesPPU) :=
  let addr := p.addrReg.get
  let p := p.incrementVramAddr
  if addr ≤ 0x1FFF then
    (p.chrRom.get addr).map fun v => (p.internalDataBuf, { p with internalDataBuf := v })
  else if 0x2000 ≤ addr ∧ addr ≤ 0x2FFF then
    (p.vram.get (p.mirrorVramAddr addr)).map fun v =>
      (p.internalDataBuf, { p with internalDataBuf := v })
  else if 0x3000 ≤ addr ∧ addr ≤ 0x3EFF then
    none
  else if 0x3F00 ≤ addr ∧ addr ≤ 0x3FFF then
    (p.paletteTable.get (addr - 0x3F00)).map fun v => (v, p)
  else none

/-- Model of `NesPPU::write_to_data` (0x2007 write); the 0x0000–0x1FFF and
0x3000–0x3EFF arms panic in the source. -/
def NesPPU.writeToData (p : NesPPU) (data : Nat) : Option NesPPU :=
  let addr := p.addrReg.get
  let p := p.incrementVramAddr
  if addr ≤ 0x1FFF then
    none
  else if 0x2000 ≤ addr ∧ addr ≤ 0x2FFF then
    (p.vram.set (p.mirrorVramAddr addr) data).map fun v => { p with vram := v }
  else if 0x3000 ≤ addr ∧ addr ≤ 0x3EFF then
    none
  else if 0x3F00 ≤ addr ∧ addr ≤ 0x3FFF then
    (p.paletteTable.set (addr - 0x3F00) data).map fun t => { p with paletteTable := t }
  else none

/-- Model of `NesPPU::read_status` (0x2002 read): reset both latches, return the
status byte, clearing the vblank bit in the stored status. -/
def NesPPU.readStatus (p : NesPPU) : Nat × NesPPU :=
  (p.status,
   { p with
      addrReg := p.addrReg.resetLatch
      scroll := p.scroll.resetLatch
      status := p.status &&& 0x7F })

/-- Model of `NesPPU::write_scroll` (0x2005 write). -/
def NesPPU.writeScroll (p : NesPPU) (data : Nat) : NesPPU :=
  { p with scroll := p.scroll.write data }

/-- Model of `NesPPU::write_mask` (0x2001 write). -/
def NesPPU.writeMask (p : NesPPU) (data : Nat) : NesPPU :=
  { p with mask := data }

/-- Model of `NesPPU::oam_addr_write` (0x2003 write). -/
def NesPPU.oamAddrWrite (p : NesPPU) (data : Nat) : NesPPU :=
  { p with oamAddr := data }

/-- Model of `NesPPU::oam_data_read` (0x2004 read). -/
def NesPPU.oamDataRead (p : NesPPU) : Option Nat :=
  p.oamData.get p.oamAddr

/-- Model of `NesPPU::oam_data_write` (0x2004 write). -/
def NesPPU.oamDataWrite (p : NesPPU) (data : Nat) : Option NesPPU :=
  (p.oamData.set p.oamAddr data).map fun o =>
    { p with oamData := o, oamAddr := (p.oamAddr + 1) % 256 }

/-- Model of `NesPPU::oam_dma_write`: copy the 256 DMA bytes into OAM starting at the
current OAM address, wrapping. -/
def NesPPU.oamDmaWrite (p : NesPPU) : List Nat → Option NesPPU
  | [] => some p
  | d :: rest =>
    (p.oamData.set p.oamAddr d).bind fun o =>
      NesPPU.oamDmaWrite { p with oamData := o, oamAddr := (p.oamAddr + 1) % 256 } rest

/-- Model of `NesPPU::get_nmi_status`. -/
def NesPPU.getNmiStatus (p : NesPPU) : Bool := p.triggerNmi

/- ---------------------------------------------------------------------
joypad.rs
--------------------------------------------------------------------- -/

/-- Model of `joypad.rs`: `struct Joypad`; `buttonStatus` is the bitflag byte. -/
structure Joypad where
  strobeStatus : Bool
  buttonIndex : Nat
  buttonStatus : Nat

/-- Model of `Joypad::new`. -/
def Joypad.new : Joypad := ⟨false, 0, 0⟩

/-- Model of `Joypad::write` (0x4016 write): bit 0 is the strobe. -/
def Joypad.write (j : Joypad) (data : Nat) : Joypad :=
  if data &&& 1 = 1 then { j with strobeStatus := true, buttonIndex := 0 }
  else { j with strobeStatus := false }

/-- Model of `Joypad::read` (0x4016 read): shift out the button at the index; past
index 7 always read 1; the index only advances when the strobe is clear. -/
def Joypad.read (j : Joypad) : Nat × Joypad :=
  if j.buttonIndex > 7 then (1, j)
  else
    let response := (j.buttonStatus &&& (1 <<< j.buttonIndex)) >>> j.buttonIndex
    let j :=
      if !j.strobeStatus && j.buttonIndex ≤ 7 then { j with buttonIndex := j.buttonIndex + 1 }
      else j
    (response, j)

/- ---------------------------------------------------------------------
mapping/mapper0.rs
--------------------------------------------------------------------- -/

/-- Model of `mapper0.rs`: `struct Mapper0`. -/
structure Mapper0 where
  prgRom : ByteVec
  prgRam : ByteVec
  chrRom : ByteVec
  mirroring : Mirroring
  chrIsRam : Bool

/-- Model of `Mapper0::new`. -/
def Mapper0.new (prgRom chrRom : ByteVec) (mirroring : Mirroring) (chrIsRam : Bool) : Mapper0 :=
  ⟨prgRom, ByteVec.fill 0x2000 0, chrRom, mirroring, chrIsRam⟩

/-- Model of `Mapper0::prg_ram_read`: `addr & 0x0FFF` into the work RAM. -/
def Mapper0.prgRamRead (m : Mapper0) (addr : Nat) : Option Nat :=
  m.prgRam.get (addr &&& 0x0FFF)

/-- Model of `Mapper for Mapper0::cpu_read`: work RAM at 0x6000–0x7FFF; the
0x8000–0xFFFF window reads program ROM, folded modulo 0x4000 when the ROM is
a single 16 KiB bank; other addresses panic. -/
def Mapper0.cpuRead (m : Mapper0) (addr : Nat) : Option Nat :=
  if 0x6000 ≤ addr ∧ addr ≤ 0x7FFF then
    m.prgRamRead (addr % 0x2000)
  else if 0x8000 ≤ addr ∧ addr ≤ 0xFFFF then
    let a := addr - 0x8000
    let a := if m.prgRom.size = 0x4000 ∧ a ≥ 0x4000 then a % 0x4000 else a
    m.prgRom.get a
  else none

/-- Model of `Mapper for Mapper0::cpu_write`: always panics (read-only PRG ROM). -/
def Mapper0.cpuWrite (_m : Mapper0) (_addr _data : Nat) : Option Mapper0 := none

/- ---------------------------------------------------------------------
mapping/mapper1.rs
--------------------------------------------------------------------- -/

/-- Model of `mapper1.rs`: `struct Mapper1`. -/
structure Mapper1 where
  prgRom : ByteVec
  prgRam : ByteVec
  chrRom : ByteVec
  shiftRegister : Nat
  shiftCount : Nat
  control : Nat
  chrBank0 : Nat
  chrBank1 : Nat
  prgBank : Nat
  prgRomBankMode : Nat
  chrRomBankMode : Nat
  prgBankOffsetFirst : Nat
  prgBankOffsetSecond : Nat
  chrBank0Offset : Nat
  chrBank1Offset : Nat
  mirroring : Mirroring
  chrIsRam : Bool

/-- Model of `Mapper1::new`. -/
def Mapper1.new (prgRom chrRom : ByteVec) (mirroring : Mirroring) (chrIsRam : Bool) : Mapper1 :=
  ⟨prgRom, ByteVec.fill 0x2000 0, chrRom, 0, 0, 0x0C, 0, 0, 0b00010000, 3, 0, 0, 0, 0, 0,
   mirroring, chrIsRam⟩

/-- Model of `Mapper1::update_banks`: recompute the cached modes, mirroring and byte
offsets from the internal registers.  The `nametable_bits == 1` arm panics in
the source (`none` here).  The mode-3 second offset uses
`prg_rom.len() / 0x4000 - 1`, a `usize` subtraction; theorems that reach it
carry `0x4000 ≤ prg_rom.len()` so `Nat` truncation never differs. -/
def Mapper1.updateBanks (m : Mapper1) : Option Mapper1 :=
  let m := { m with
    prgRomBankMode := (m.control >>> 2) &&& 0b11
    chrRomBankMode := (m.control >>> 4) &&& 0b1 }
  let nametableBits := m.control &&& 0b11
  let mirrOpt : Option Mirroring :=
    match nametableBits with
    | 0 => some Mirroring.vertical
    | 1 => none
    | 2 => some Mirroring.vertical
    | 3 => some Mirroring.horizontal
    | _ => none
  mirrOpt.bind fun mirr =>
    let m := { m with mirroring := mirr }
    let bank := m.prgBank &&& 0b00001111
    let singlePrgBankSize := 0x4000
    let m :=
      match m.prgRomBankMode with
      | 0 | 1 =>
        let first := (bank &&& 0b1110) * singlePrgBankSize
        { m with prgBankOffsetFirst := first, prgBankOffsetSecond := first + 0x4000 }
      | 2 =>
        { m with prgBankOffsetFirst := 0, prgBankOffsetSecond := bank * singlePrgBankSize }
      | _ =>
        { m with
          prgBankOffsetFirst := bank * singlePrgBankSize
          prgBankOffsetSecond := (m.prgRom.size / 0x4000 - 1) * singlePrgBankSize }
    let singleChrBankSize := 0x1000
    let m :=
      match m.chrRomBankMode with
      | 0 =>
        let first := (m.chrBank0 &&& 0b00011111) * singleChrBankSize
        { m with chrBank0Offset := first, chrBank1Offset := first + 0x1000 }
      | _ =>
        { m with
          chrBank0Offset := (m.chrBank0 &&& 0b00011111) * singleChrBankSize
          chrBank1Offset := (m.chrBank1 &&& 0b00011111) * singleChrBankSize }
    some m

/-- Model of `Mapper for Mapper1::cpu_read`. -/
def Mapper1.cpuRead (m : Mapper1) (addr : Nat) : Option Nat :=
  if 0x6000 ≤ addr ∧ addr ≤ 0x7FFF then
    m.prgRam.get (addr % 0x2000)
  else if 0x8000 ≤ addr ∧ addr ≤ 0xBFFF then
    m.prgRom.get (m.prgBankOffsetFirst + (addr - 0x8000))
  else if 0xC000 ≤ addr ∧ addr ≤ 0xFFFF then
    m.prgRom.get (m.prgBankOffsetSecond + (addr - 0xC000))
  else none

/-- Model of `Mapper for Mapper1::cpu_write`: 0x6000–0x7FFF is work RAM; in
0x8000–0xFFFF a data byte with bit 7 set resets the shift register and the
control register (program-bank-mode 3); otherwise the low data bit is
shifted in from the top, and the fifth write commits the 5-bit value to the
register selected by `(addr - 0x8000) / 0x2000`. -/
def Mapper1.cpuWrite (m : Mapper1) (addr data : Nat) : Option Mapper1 :=
  if 0x6000 ≤ addr ∧ addr ≤ 0x7FFF then
    (m.prgRam.set (addr % 0x2000) data).map fun r => { m with prgRam := r }
  else if 0x8000 ≤ addr ∧ addr ≤ 0xFFFF then
    if data &&& 0x80 ≠ 0 then
      Mapper1.updateBanks { m with shiftRegister := 0, shiftCount := 0, control := 0x0C }
    else
      let m := { m with
        shiftRegister := (m.shiftRegister >>> 1) ||| ((data &&& 0b1) <<< 4)
        shiftCount := m.shiftCount + 1 }
      if m.shiftCount = 5 then
        let registerIndex := (addr - 0x8000) / 0x2000
        let committed := m.shiftRegister &&& 0b00011111
        let mOpt : Option Mapper1 :=
          match registerIndex with
          | 0 => some { m with control := committed }
          | 1 => some { m with chrBank0 := committed }
          | 2 => some { m with chrBank1 := committed }
          | 3 => some { m with prgBank := committed }
          | _ => none
        mOpt.bind fun m =>
          Mapper1.updateBanks { m with shiftCount := 0, shiftRegister := 0 }
      else some m
  else none

/- ---------------------------------------------------------------------
bus.rs
--------------------------------------------------------------------- -/

/-- The `dyn Mapper` capability set used by the bus, restricted to the two
CPU-side operations the claims exercise. -/
structure MapperOps (μ : Type) where
  cpuRead : μ → Nat → Option Nat
  cpuWrite : μ → Nat → Nat → Option μ

/-- The `MapperOps` of `Mapper0`. -/
def mapper0Ops : MapperOps Mapper0 := ⟨Mapper0.cpuRead, Mapper0.cpuWrite⟩

/-- The `MapperOps` of `Mapper1`. -/
def mapper1Ops : MapperOps Mapper1 := ⟨Mapper1.cpuRead, Mapper1.cpuWrite⟩

/-- Model of `bus.rs`: `struct Bus`.  The `gameloop_callback` closure is modelled by
`callbackCount`, the number of times the bus has invoked it. -/
structure Bus (μ : Type) where
  cpuVram : Nat → Nat
  joypad1 : Joypad
  ppu : NesPPU
  mapper : μ
  cycles : Nat
  callbackCount : Nat

/-- Model of `Bus::tick(cycles)`: add to the cycle counter, tick the PPU three times
with the same dot count, and invoke the frame callback when the PPU's
NMI-pending flag rose during this tick. -/
def Bus.tick (b : Bus μ) (cycles : Nat) : Bus μ :=
  let b := { b with cycles := b.cycles + cycles }
  let nmiBefore := b.ppu.triggerNmi
  let p1 := (b.ppu.tick cycles).1
  let p2 := (p1.tick cycles).1
  let p3 := (p2.tick cycles).1
  let b := { b with ppu := p3 }
  let nmiAfter := b.ppu.triggerNmi
  if !nmiBefore && nmiAfter then { b with callbackCount := b.callbackCount + 1 }
  else b

/-- Model of `Bus::poll_nmi_status`. -/
def Bus.pollNmiStatus (b : Bus μ) : Bool := b.ppu.getNmiStatus

/-- Model of `Mem::mem_read for Bus`.  Reads of the write-only PPU registers (and of
0x4014) panic; 0x2008–0x3FFF recurses at `addr & 0b001000000000111`
(a 15-bit literal, so the mask is 0x1007); 0x6000–0xFFFF goes to the mapper;
unknown addresses read 0. -/
def Bus.memRead (ops : MapperOps μ) (b : Bus μ) (addr : Nat) : Option (Nat × Bus μ) :=
  if addr ≤ 0x1FFF then
    some (b.cpuVram (addr &&& 0b0000011111111111), b)
  else if addr = 0x2000 ∨ addr = 0x2001 ∨ addr = 0x2003 ∨ addr = 0x2005 ∨
      addr = 0x2006 ∨ addr = 0x4014 then
    none
  else if addr = 0x2002 then
    let vp := b.ppu.readStatus
    some (vp.1, { b with ppu := vp.2 })
  else if addr = 0x2004 then
    b.ppu.oamDataRead.map fun v => (v, b)
  else if addr = 0x2007 then
    b.ppu.readData.map fun vp => (vp.1, { b with ppu := vp.2 })
  else if 0x2008 ≤ addr ∧ addr ≤ 0x3FFF then
    Bus.memRead ops b (addr &&& 0b001000000000111)
  else if 0x6000 ≤ addr ∧ addr ≤ 0xFFFF then
    (ops.cpuRead b.mapper addr).map fun v => (v, b)
  else if addr = 0x4016 then
    let vj := b.joypad1.read
    some (vj.1, { b with joypad1 := vj.2 })
  else if addr = 0x4017 then
    some (0, b)
  else
    some (0, b)
termination_by addr
decreasing_by
  have h1 : addr &&& 0b001000000000111 ≤ 0b001000000000111 := Nat.and_le_right
  omega

/-- The 256-byte OAM-DMA read loop of the 0x4014 write arm: sequential
`mem_read`s at `base + i`, threading bus state. -/
def Bus.dmaCollect (ops : MapperOps μ) (base : Nat) (b : Bus μ) (i : Nat) :
    Nat → Option (List Nat × Bus μ)
  | 0 => some ([], b)
  | count + 1 =>
    (Bus.memRead ops b (base + i)).bind fun vb =>
      (Bus.dmaCollect ops base vb.2 (i + 1) count).map fun rb =>
        (vb.1 :: rb.1, rb.2)

/-- Model of `Mem::mem_write for Bus`.  Writes to 0x2002 panic; 0x2008–0x3FFF
recurses at `addr & 0x1007` (the same 15-bit literal as `mem_read`);
0x4014 performs the 256-byte OAM DMA copy without touching the cycle
counter; unknown addresses are ignored. -/
def Bus.memWrite (ops : MapperOps μ) (b : Bus μ) (addr data : Nat) : Option (Bus μ) :=
  if addr ≤ 0x1FFF then
    some { b with cpuVram := fun j => if j = addr &&& 0b0000011111111111 then data else b.cpuVram j }
  else if addr = 0x2000 then
    some { b with ppu := b.ppu.writeToCtrl data }
  else if addr = 0x2001 then
    some { b with ppu := b.ppu.writeMask data }
  else if addr = 0x2002 then
    none
  else if addr = 0x2003 then
    some { b with ppu := b.ppu.oamAddrWrite data }
  else if addr = 0x2004 then
    (b.ppu.oamDataWrite data).map fun p => { b with ppu := p }
  else if addr = 0x2005 then
    some { b with ppu := b.ppu.writeScroll data }
  else if addr = 0x2006 then
    some { b with ppu := b.ppu.writeToPpuAddr data }
  else if addr = 0x2007 then
    (b.ppu.writeToData data).map fun p => { b with ppu := p }
  else if 0x2008 ≤ addr ∧ addr ≤ 0x3FFF then
    Bus.memWrite ops b (addr &&& 0b001000000000111) data
  else if 0x6000 ≤ addr ∧ addr ≤ 0xFFFF then
    (ops.cpuWrite b.mapper addr data).map fun m => { b with mapper := m }
  else if addr = 0x4000 ∨ addr = 0x4001 ∨ addr = 0x4002 ∨ addr = 0x4003 ∨
      addr = 0x4006 ∨ addr = 0x4005 ∨ addr = 0x4007 ∨ addr = 0x4004 then
    some b
  else if addr = 0x4014 then
    (Bus.dmaCollect ops (data <<< 8) b 0 256).bind fun lb =>
      (lb.2.ppu.oamDmaWrite lb.1).map fun p => { lb.2 with ppu := p }
  else if addr = 0x4016 then
    some { b with joypad1 := b.joypad1.write data }
  else if addr = 0x4017 then
    some b
  else
    some b
termination_by addr
decreasing_by
  have h1 : addr &&& 0b001000000000111 ≤ 0b001000000000111 := Nat.and_le_right
  omega

/-- Model of `Mem::mem_read_u16 for Bus`: little-endian pair of `mem_read`s. -/
def Bus.memReadU16 (ops : MapperOps μ) (b : Bus μ) (addr : Nat) : Option (Nat × Bus μ) :=
  (Bus.memRead ops b addr).bind fun lo =>
    (Bus.memRead ops lo.2 (addr + 1)).map fun hi =>
      ((hi.1 <<< 8) ||| lo.1, hi.2)

/-- Iterated `Bus::tick` with a fixed per-instruction cycle count. -/
def Bus.runTicks (b : Bus μ) (cycles : Nat) : Nat → Bus μ
  | 0 => b
  | n + 1 => Bus.runTicks (b.tick cycles) cycles n

/- ---------------------------------------------------------------------
cpu.rs (the parts the claims are about)
--------------------------------------------------------------------- -/

/-- Model of `cpu.rs`: `struct CPU` (registers plus the owned bus). -/
structure CPU (μ : Type) where
  regA : Nat
  regX : Nat
  regY : Nat
  status : Nat
  pc : Nat
  sp : Nat
  bus : Bus μ
  extraCycles : Nat
  test : Bool

/-- Model of `CPU::mem_read`. -/
def CPU.memRead (ops : MapperOps μ) (c : CPU μ) (addr : Nat) : Option (Nat × CPU μ) :=
  (Bus.memRead ops c.bus addr).map fun vb => (vb.1, { c with bus := vb.2 })

/-- Model of `CPU::mem_read_u16`. -/
def CPU.memReadU16 (ops : MapperOps μ) (c : CPU μ) (addr : Nat) : Option (Nat × CPU μ) :=
  (Bus.memReadU16 ops c.bus addr).map fun vb => (vb.1, { c with bus := vb.2 })

/-- Model of `CPU::reset`: zero A and X, set status to 0b0010_0000 and SP to 0xFF,
and load PC from the vector at 0xFFFC.  (`reg_y` is not assigned.) -/
def CPU.reset (ops : MapperOps μ) (c : CPU μ) : Option (CPU μ) :=
  let c := { c with regA := 0, regX := 0, status := 0b00100000, sp := 0xFF }
  (CPU.memReadU16 ops c 0xFFFC).map fun vc => { vc.2 with pc := vc.1 }

/-- Model of `CPU::stack_pop`: increment SP (wrapping). -/
def CPU.stackPop (c : CPU μ) : CPU μ :=
  { c with sp := (c.sp + 1) % 256 }

/-- Model of `CPU::stack_read`: read the byte at `0x0100 + SP`. -/
def CPU.stackRead (ops : MapperOps μ) (c : CPU μ) : Option (Nat × CPU μ) :=
  CPU.memRead ops c (0x0100 + c.sp)

/-- Model of `CPU::stack_read_u16`: read the 16-bit word at `0x0100 + SP`. -/
def CPU.stackReadU16 (ops : MapperOps μ) (c : CPU μ) : Option (Nat × CPU μ) :=
  CPU.memReadU16 ops c (0x0100 + c.sp)

/-- Model of `CPU::plp`: pull the status byte from the stack (no bit is forced). -/
def CPU.plp (ops : MapperOps μ) (c : CPU μ) : Option (CPU μ) :=
  let c := c.stackPop
  (CPU.stackRead ops c).map fun vc => { vc.2 with status := vc.1 }

/-- Model of `CPU::rti`: pull status, then pull PC; returns the `false`
don't-advance-PC flag of the source. -/
def CPU.rti (ops : MapperOps μ) (c : CPU μ) : Option (CPU μ × Bool) :=
  let c := c.stackPop
  (CPU.stackRead ops c).bind fun vc =>
    let c := { vc.2 with status := vc.1 }
    let c := c.stackPop
    (CPU.stackReadU16 ops c).map fun wc =>
      ({ wc.2 with pc := wc.1 }.stackPop, false)

/-- Model of `CPU::update_c_bit` (status bit 0). -/
def CPU.updateCBit (c : CPU μ) (v : Bool) : CPU μ :=
  if v then { c with status := c.status ||| 0b00000001 }
  else { c with status := c.status &&& 0b11111110 }

/-- Model of `CPU::update_o_flag` (status bit 6). -/
def CPU.updateOFlag (c : CPU μ) (v : Bool) : CPU μ :=
  if v then { c with status := c.status ||| 0b01000000 }
  else { c with status := c.status &&& 0b10111111 }

/-- Model of `CPU::update_z_and_n_flags` (status bits 1 and 7, from a result byte). -/
def CPU.updateZAndNFlags (c : CPU μ) (value : Nat) : CPU μ :=
  let c :=
    if value = 0 then { c with status := c.status ||| 0b00000010 }
    else { c with status := c.status &&& 0b11111101 }
  if value &&& 0b10000000 ≠ 0 then { c with status := c.status ||| 0b10000000 }
  else { c with status := c.status &&& 0b01111111 }

/-- Model of `CPU::add_carry`: the shared ADC core.  Unsigned 9-bit sum with carry-in,
carry out iff the sum exceeds 0xFF, overflow iff
`(A ^ result) & (param ^ result) & 0x80 == 0x80`, result truncated to 8 bits. -/
def CPU.addCarry (c : CPU μ) (param : Nat) : CPU μ :=
  let sum := c.regA + param + (if c.status &&& 0b00000001 = 0b00000001 then 1 else 0)
  let c := c.updateCBit (sum > 0xFF)
  let shortSum := sum % 256
  let c := c.updateOFlag ((c.regA ^^^ shortSum) &&& (param ^^^ shortSum) &&& 0b10000000 = 0b10000000)
  let c := { c with regA := shortSum }
  c.updateZAndNFlags c.regA

/-- The body of `CPU::sbc` after the operand fetch: complement the operand
byte and feed it to `add_carry`.  (`!param` on `u8` is `param ^ 0xFF`.) -/
def CPU.sbcBody (c : CPU μ) (param : Nat) : CPU μ :=
  c.addCarry (param ^^^ 0xFF)

/- ---------------------------------------------------------------------
Concrete initial states shared by the claims' witnesses and
counterexamples.  The ROM contents follow `bus.rs::test_rom_gen`
(16 KiB of 0xEA program ROM). -/

/-- The `test_rom_gen` mapper: 16 KiB of 0xEA program ROM, 5 bytes of
character ROM, horizontal mirroring. -/
def mapper0Init : Mapper0 :=
  Mapper0.new (ByteVec.fill 0x4000 0xEA) (ByteVec.fill 5 0) Mirroring.horizontal false

/-- Fresh PPU over the `mapper0Init` character ROM. -/
def ppuInit : NesPPU := NesPPU.new (ByteVec.fill 5 0) Mirroring.horizontal

/-- Fresh bus (zeroed RAM, fresh joypad and PPU, cycle counter 0). -/
def busInit : Bus Mapper0 :=
  ⟨fun _ => 0, Joypad.new, ppuInit, mapper0Init, 0, 0⟩

/-- Fresh bus whose PPU control register has the generate-NMI bit set. -/
def busNmiInit : Bus Mapper0 :=
  { busInit with ppu := { ppuInit with ctrl := 0x80 } }

/-- Fresh CPU on top of `busInit`. -/
def cpuInit : CPU Mapper0 :=
  ⟨0, 0, 0, 0b00100000, 0, 0xFF, busInit, 0, false⟩

/-- A concrete Mapper 1 cartridge: 32 KiB of zeroed program ROM, 8 KiB of
character ROM. -/
def mapper1Init : Mapper1 :=
  Mapper1.new (ByteVec.fill 0x8000 0) (ByteVec.fill 0x2000 0) Mirroring.horizontal false

/- =====================================================================
Theorems.  First, generic bit-manipulation lemmas used to reason about the
constant-mask flag updates of the source; then helper lemmas about the bus;
then one theorem per claim.
===================================================================== -/

/-- Or-ing in a mask that is disjoint from `m` does not change the `m` bits. -/
theorem or_and_of_disjoint (x k m : Nat) (h : k &&& m = 0) :
    (x ||| k) &&& m = x &&& m := by
  rw [Nat.and_distrib_right, h, Nat.or_zero]

/-- And-ing with a mask that contains all of `m` does not change the `m` bits. -/
theorem and_and_of_superset (x k m : Nat) (h : k &&& m = m) :
    (x &&& k) &&& m = x &&& m := by
  rw [Nat.and_assoc, h]

/-- And-ing with a mask disjoint from `m` clears the `m` bits. -/
theorem and_and_of_disjoint (x k m : Nat) (h : k &&& m = 0) :
    (x &&& k) &&& m = 0 := by
  rw [Nat.and_assoc, h, Nat.and_zero]

/-- Model of `(x &&& m) ||| m = m`: the masked value is absorbed by the mask. -/
theorem and_or_absorb (x m : Nat) : (x &&& m) ||| m = m := by
  apply Nat.eq_of_testBit_eq
  intro i
  rw [Nat.testBit_or, Nat.testBit_and]
  cases x.testBit i <;> cases m.testBit i <;> rfl

/-- Or-ing in a mask containing all of `m` sets the `m` bits. -/
theorem or_and_of_superset (x k m : Nat) (h : k &&& m = m) :
    (x ||| k) &&& m = m := by
  rw [Nat.and_distrib_right, h, and_or_absorb]

/-- Model of `y &&& 2^i = 2^i` iff bit `i` of `y` is set. -/
theorem and_two_pow_eq_iff (y i : Nat) :
    y &&& 2 ^ i = 2 ^ i ↔ y.testBit i = true := by
  constructor
  · intro h
    have h2 := congrArg (fun z => z.testBit i) h
    simpa [Nat.testBit_and, Nat.testBit_two_pow_self] using h2
  · intro h
    apply Nat.eq_of_testBit_eq
    intro j
    by_cases hj : i = j
    · subst hj
      simp [Nat.testBit_and, h, Nat.testBit_two_pow_self]
    · simp [Nat.testBit_and, Nat.testBit_two_pow_of_ne hj]

/-- Recombining a high byte and a low byte is plain arithmetic. -/
theorem shl_or_eq_add (hi lo : Nat) (h : lo < 256) :
    (hi <<< 8) ||| lo = 256 * hi + lo := by
  have h1 : hi <<< 8 = hi * 2 ^ 8 := Nat.shiftLeft_eq hi 8
  have h2 : 2 ^ 8 * hi + lo = 2 ^ 8 * hi ||| lo :=
    Nat.mul_add_lt_is_or (by norm_num [h]) hi
  calc (hi <<< 8) ||| lo = (2 ^ 8 * hi) ||| lo := by rw [h1, Nat.mul_comm]
    _ = 2 ^ 8 * hi + lo := h2.symm
    _ = 256 * hi + lo := by norm_num

/- ---------------------------------------------------------------------
Helper lemmas about the bus dispatch (the `mem_read`/`mem_write` match arms
that the claims exercise).
--------------------------------------------------------------------- -/

/-- Model of `mem_read` of 0x0000–0x1FFF is a mirrored RAM read. -/
theorem memRead_ram {μ : Type} (ops : MapperOps μ) (b : Bus μ) (addr : Nat)
    (h : addr ≤ 0x1FFF) :
    Bus.memRead ops b addr = some (b.cpuVram (addr &&& 0b0000011111111111), b) := by
  rw [Bus.memRead.eq_def]
  split_ifs <;> first | rfl | omega

/-- Model of `mem_read` of 0x6000–0xFFFF goes to the mapper and leaves the bus alone. -/
theorem memRead_rom {μ : Type} (ops : MapperOps μ) (b : Bus μ) (addr : Nat)
    (h1 : 0x6000 ≤ addr) (h2 : addr ≤ 0xFFFF) :
    Bus.memRead ops b addr = (ops.cpuRead b.mapper addr).map fun v => (v, b) := by
  rw [Bus.memRead.eq_def]
  split_ifs with hA hB hC hD hE hF <;> first | rfl | omega | (exfalso; omega)

/-- The OAM-DMA read loop over a range that stays inside 0x0000–0x1FFF
collects mirrored RAM bytes and leaves the bus state unchanged. -/
theorem dmaCollect_ram {μ : Type} (ops : MapperOps μ) (base : Nat) :
    ∀ (count i : Nat) (b : Bus μ), base + i + count ≤ 0x2000 →
      Bus.dmaCollect ops base b i count =
        some ((List.range count).map fun k => b.cpuVram ((base + i + k) &&& 0b0000011111111111), b) := by
  intro count
  induction count with
  | zero => intro i b _; unfold Bus.dmaCollect; simp
  | succ n ih =>
    intro i b h
    simp only [Bus.dmaCollect]
    rw [memRead_ram ops b (base + i) (by omega)]
    simp only [Option.bind_eq_bind, Option.some_bind]
    rw [ih (i + 1) b (by omega)]
    simp only [Option.map_some']
    rw [List.range_succ_eq_map, List.map_cons, List.map_map]
    simp only [Option.some.injEq, Prod.mk.injEq, and_true]
    congr 1
    apply List.map_congr_left
    intro k _
    simp only [Function.comp_apply, Nat.succ_eq_add_one]
    congr 2
    omega

/-- A 256-byte OAM-DMA copy into a well-formed OAM (size 256, in-range OAM
address) always succeeds. -/
theorem oamDmaWrite_some : ∀ (lst : List Nat) (p : NesPPU),
    p.oamData.size = 256 → p.oamAddr < 256 →
    ∃ q, p.oamDmaWrite lst = some q := by
  intro lst
  induction lst with
  | nil => intro p _ _; exact ⟨p, rfl⟩
  | cons d rest ih =>
    intro p hsz ha
    unfold NesPPU.oamDmaWrite ByteVec.set
    rw [hsz]
    simp only [ha, if_pos]
    exact ih _ (by simp [hsz]) (by simp only []; exact Nat.mod_lt _ (by norm_num))

/-- C1.  The claim says a bus access in 0x2008–0x3FFF behaves like the same
access at 0x2000 + (addr mod 8).  The code masks with the 15-bit literal
`0b0010000_00000111` (0x1007, not 0x2007), so the mirrored access lands in
internal RAM instead of the PPU registers: writing 0x55 to 0x2008 stores it
in RAM cell 0 and leaves the PPU control register untouched, while the same
write at 0x2000 updates the control register; reading 0x2008 returns RAM
cell 0 instead of panicking like the write-only register 0x2000 does. -/
theorem claim_C1_ppu_mirror_code_bug :
    (Bus.memWrite mapper0Ops busInit 0x2008 0x55).map (fun s => (s.cpuVram 0, s.ppu.ctrl)) =
      some (0x55, 0)
    ∧ (Bus.memWrite mapper0Ops busInit 0x2000 0x55).map (fun s => (s.cpuVram 0, s.ppu.ctrl)) =
      some (0, 0x55)
    ∧ (Bus.memRead mapper0Ops busInit 0x2008).map Prod.fst = some 0
    ∧ Bus.memRead mapper0Ops busInit 0x2000 = none := by
  refine ⟨?_, ?_, ?_, ?_⟩
  · rw [Bus.memWrite.eq_def]
    norm_num
    rw [show (0x2008 : Nat) &&& 0b001000000000111 = 0 from by decide]
    rw [Bus.memWrite.eq_def]
    norm_num
    rfl
  · rw [Bus.memWrite.eq_def]
    norm_num
    exact ⟨rfl, rfl⟩
  · rw [Bus.memRead.eq_def]
    norm_num
    rw [show (0x2008 : Nat) &&& 0b001000000000111 = 0 from by decide]
    rw [Bus.memRead.eq_def]
    norm_num
    rfl
  · rw [Bus.memRead.eq_def]
    norm_num

/-- C4.  The claim requires a 0x4014 (sprite-DMA) write to advance the bus
cycle counter.  The code performs the 256-byte copy but never touches
`cycles` (its own comment marks the missing cycle handling as a to-do):
after writing 0x02 to 0x4014 the cycle counter still equals its old value,
not a strictly greater one. -/
theorem claim_C4_dma_cycles_code_bug :
    (Bus.memWrite mapper0Ops busInit 0x4014 0x02).map (fun s => s.cycles) =
      some busInit.cycles := by
  rw [Bus.memWrite.eq_def]
  norm_num
  rw [show (0x02 : Nat) <<< 8 = 0x200 from by decide]
  rw [dmaCollect_ram mapper0Ops 0x200 256 0 busInit (by norm_num)]
  obtain ⟨q, hq⟩ := oamDmaWrite_some
    ((List.range 256).map fun k => busInit.cpuVram ((0x200 + 0 + k) &&& 0b0000011111111111))
    busInit.ppu rfl (by decide)
  simp [hq]

/-- Model of `CPU::reset` evaluated: with the two reset-vector bytes known, reset
zeroes A and X, sets status/SP, loads PC little-endian — and leaves every
other field (`reg_y` included) untouched. -/
theorem reset_eval {μ : Type} (ops : MapperOps μ) (c : CPU μ) (lo hi : Nat)
    (h1 : ops.cpuRead c.bus.mapper 0xFFFC = some lo)
    (h2 : ops.cpuRead c.bus.mapper 0xFFFD = some hi) :
    CPU.reset ops c =
      some { c with regA := 0, regX := 0, status := 0b00100000, sp := 0xFF,
                    pc := (hi <<< 8) ||| lo } := by
  unfold CPU.reset CPU.memReadU16 Bus.memReadU16
  dsimp only
  rw [memRead_rom ops c.bus 0xFFFC (by norm_num) (by norm_num), h1]
  simp only [Option.map_some', Option.some_bind]
  rw [memRead_rom ops c.bus 0xFFFD (by norm_num) (by norm_num), h2]
  simp only [Option.map_some', Option.map_map]

/-- C2 (counterexample).  The claim says reset zeroes register Y.  The
code's `CPU::reset` never assigns `reg_y`: resetting a CPU whose Y register
holds 5 leaves Y = 5, not 0. -/
theorem claim_C2_counterexample :
    ¬ ((CPU.reset mapper0Ops { cpuInit with regY := 5 }).map (fun s => s.regY) = some 0) := by
  rw [reset_eval mapper0Ops _ 0xEA 0xEA (by decide) (by decide)]
  simp

/-- C2 (amended).  After `CPU::reset`, A and X are 0, SP is 0xFF, the status
byte is 0b00100000 and PC is the little-endian word read from 0xFFFC — while
Y keeps its pre-reset value (the source never assigns `reg_y`). -/
theorem claim_C2_reset_amended {μ : Type} (ops : MapperOps μ) (c : CPU μ) (lo hi : Nat)
    (h1 : ops.cpuRead c.bus.mapper 0xFFFC = some lo)
    (h2 : ops.cpuRead c.bus.mapper 0xFFFD = some hi) :
    (CPU.reset ops c).map (fun s => (s.regA, s.regX, s.regY, s.sp, s.status, s.pc)) =
      some (0, 0, c.regY, 0xFF, 0b00100000, (hi <<< 8) ||| lo) := by
  rw [reset_eval ops c lo hi h1 h2]
  rfl

/-- C2 (witness): the amended reset theorem applied to the concrete test
cartridge, whose reset vector bytes are 0xEA 0xEA. -/
theorem claim_C2_witness :
    mapper0Ops.cpuRead cpuInit.bus.mapper 0xFFFC = some 0xEA
    ∧ mapper0Ops.cpuRead cpuInit.bus.mapper 0xFFFD = some 0xEA
    ∧ (CPU.reset mapper0Ops cpuInit).map (fun s => (s.regA, s.regX, s.regY, s.sp, s.status, s.pc)) =
        some (0, 0, cpuInit.regY, 0xFF, 0b00100000, (0xEA <<< 8) ||| 0xEA) :=
  ⟨by decide, by decide,
   claim_C2_reset_amended mapper0Ops cpuInit 0xEA 0xEA (by decide) (by decide)⟩

/-- Addresses below 0x800 are fixed points of the RAM mirror mask. -/
theorem ram_mask_eq (k : Nat) (h : k < 0x800) : k &&& 0b0000011111111111 = k := by
  rw [show (0b0000011111111111 : Nat) = 2 ^ 11 - 1 from by norm_num]
  exact Nat.and_pow_two_sub_one_of_lt_two_pow (by norm_num [h])

/-- Model of `CPU::plp` evaluated: SP is incremented (wrapping) and the status byte
becomes exactly the RAM byte at `0x0100 + SP`. -/
theorem plp_eval {μ : Type} (ops : MapperOps μ) (c : CPU μ) :
    CPU.plp ops c =
      some { c with sp := (c.sp + 1) % 256,
                    status := c.bus.cpuVram (0x100 + (c.sp + 1) % 256) } := by
  unfold CPU.plp CPU.stackPop CPU.stackRead CPU.memRead
  dsimp only
  rw [memRead_ram ops c.bus (0x100 + (c.sp + 1) % 256)
      (by have := Nat.mod_lt (c.sp + 1) (show 0 < 256 from by norm_num); omega)]
  rw [ram_mask_eq _ (by have := Nat.mod_lt (c.sp + 1) (show 0 < 256 from by norm_num); omega)]
  simp only [Option.map_some']

/-- The status byte produced by `CPU::rti` is exactly the RAM byte pulled
from the stack; the later PC pull does not touch it. -/
theorem rti_status {μ : Type} (ops : MapperOps μ) (c : CPU μ) :
    (CPU.rti ops c).map (fun s => s.1.status) =
      some (c.bus.cpuVram (0x100 + (c.sp + 1) % 256)) := by
  have hm : ∀ x : Nat, x % 256 < 256 := fun x => Nat.mod_lt _ (by norm_num)
  unfold CPU.rti CPU.stackPop CPU.stackRead CPU.stackReadU16 CPU.memRead CPU.memReadU16 Bus.memReadU16
  dsimp only
  rw [memRead_ram ops c.bus (0x100 + (c.sp + 1) % 256) (by have := hm (c.sp + 1); omega)]
  rw [ram_mask_eq _ (by have := hm (c.sp + 1); omega)]
  simp only [Option.map_some', Option.some_bind]
  rw [memRead_ram ops c.bus (0x100 + ((c.sp + 1) % 256 + 1) % 256)
      (by have := hm ((c.sp + 1) % 256 + 1); omega)]
  simp only [Option.some_bind]
  rw [memRead_ram ops c.bus (0x100 + ((c.sp + 1) % 256 + 1) % 256 + 1)
      (by have := hm ((c.sp + 1) % 256 + 1); omega)]
  simp only [Option.map_some', Option.some_bind]

/-- C8 (counterexample).  The claim says bit 5 of the status register is 1
after any status pull.  `CPU::plp` assigns the raw stack byte: pulling the
byte 0 (zeroed RAM) leaves status bit 5 clear. -/
theorem claim_C8_counterexample :
    ¬ ((CPU.plp mapper0Ops { cpuInit with sp := 0x80 }).map (fun s => s.status &&& 0x20) =
        some 0x20) := by
  rw [plp_eval mapper0Ops { cpuInit with sp := 0x80 }]
  decide

/-- C8 (amended).  After `PLP`, and after the status pull inside `RTI`, the
status register equals exactly the byte stored on the stack (the RAM byte at
`0x0100 + SP` after the pop); no bit — bit 5 included — is forced to 1. -/
theorem claim_C8_pull_amended {μ : Type} (ops : MapperOps μ) (c : CPU μ) :
    (CPU.plp ops c).map (fun s => s.status) =
      some (c.bus.cpuVram (0x100 + (c.sp + 1) % 256))
    ∧ (CPU.rti ops c).map (fun s => s.1.status) =
      some (c.bus.cpuVram (0x100 + (c.sp + 1) % 256)) := by
  constructor
  · rw [plp_eval ops c]
    rfl
  · exact rti_status ops c

/-- Masking helper instances for the status-byte updates (bit 0). -/
theorem mask_b0_or128 (x : Nat) : (x ||| 128) &&& 1 = x &&& 1 := or_and_of_disjoint x 128 1 (by decide)
/-- Bit 0 survives clearing bit 7. -/
theorem mask_b0_and127 (x : Nat) : (x &&& 127) &&& 1 = x &&& 1 := and_and_of_superset x 127 1 (by decide)
/-- Bit 0 survives setting bit 1. -/
theorem mask_b0_or2 (x : Nat) : (x ||| 2) &&& 1 = x &&& 1 := or_and_of_disjoint x 2 1 (by decide)
/-- Bit 0 survives clearing bit 1. -/
theorem mask_b0_and253 (x : Nat) : (x &&& 253) &&& 1 = x &&& 1 := and_and_of_superset x 253 1 (by decide)
/-- Bit 0 survives setting bit 6. -/
theorem mask_b0_or64 (x : Nat) : (x ||| 64) &&& 1 = x &&& 1 := or_and_of_disjoint x 64 1 (by decide)
/-- Bit 0 survives clearing bit 6. -/
theorem mask_b0_and191 (x : Nat) : (x &&& 191) &&& 1 = x &&& 1 := and_and_of_superset x 191 1 (by decide)
/-- Setting bit 0 makes bit 0 read 1. -/
theorem mask_b0_or1 (x : Nat) : (x ||| 1) &&& 1 = 1 := or_and_of_superset x 1 1 (by decide)
/-- Clearing bit 0 makes bit 0 read 0. -/
theorem mask_b0_and254 (x : Nat) : (x &&& 254) &&& 1 = 0 := and_and_of_disjoint x 254 1 (by decide)
/-- Bit 6 survives setting bit 7. -/
theorem mask_b6_or128 (x : Nat) : (x ||| 128) &&& 64 = x &&& 64 := or_and_of_disjoint x 128 64 (by decide)
/-- Bit 6 survives clearing bit 7. -/
theorem mask_b6_and127 (x : Nat) : (x &&& 127) &&& 64 = x &&& 64 := and_and_of_superset x 127 64 (by decide)
/-- Bit 6 survives setting bit 1. -/
theorem mask_b6_or2 (x : Nat) : (x ||| 2) &&& 64 = x &&& 64 := or_and_of_disjoint x 2 64 (by decide)
/-- Bit 6 survives clearing bit 1. -/
theorem mask_b6_and253 (x : Nat) : (x &&& 253) &&& 64 = x &&& 64 := and_and_of_superset x 253 64 (by decide)
/-- Setting bit 6 makes bit 6 read 64. -/
theorem mask_b6_or64 (x : Nat) : (x ||| 64) &&& 64 = 64 := or_and_of_superset x 64 64 (by decide)
/-- Clearing bit 6 makes bit 6 read 0. -/
theorem mask_b6_and191 (x : Nat) : (x &&& 191) &&& 64 = 0 := and_and_of_disjoint x 191 64 (by decide)

/-- Model of `CPU::add_carry` leaves in A the low 8 bits of `A + param + carry-in`. -/
theorem addCarry_regA {μ : Type} (c : CPU μ) (param : Nat) :
    (c.addCarry param).regA =
      (c.regA + param + (if c.status &&& 1 = 1 then 1 else 0)) % 256 := by
  unfold CPU.addCarry CPU.updateCBit CPU.updateOFlag CPU.updateZAndNFlags
  dsimp only
  split_ifs <;> rfl

/-- After `CPU::add_carry`, the carry flag reads 1 exactly when the 9-bit
unsigned sum exceeded 0xFF. -/
theorem addCarry_carry {μ : Type} (c : CPU μ) (param : Nat) :
    (c.addCarry param).status &&& 1 =
      if c.regA + param + (if c.status &&& 1 = 1 then 1 else 0) > 0xFF then 1 else 0 := by
  unfold CPU.addCarry CPU.updateCBit CPU.updateOFlag CPU.updateZAndNFlags
  dsimp only
  split_ifs <;> simp only [decide_eq_true_eq] at * <;>
    simp only [mask_b0_or128, mask_b0_and127, mask_b0_or2, mask_b0_and253, mask_b0_or64,
      mask_b0_and191, mask_b0_or1, mask_b0_and254] <;>
    first | rfl | contradiction | omega

/-- After `CPU::add_carry`, the overflow flag reads 1 exactly when the
source's `(A ^ result) & (param ^ result) & 0x80 == 0x80` test held. -/
theorem addCarry_overflow {μ : Type} (c : CPU μ) (param : Nat) :
    (c.addCarry param).status &&& 64 =
      if (c.regA ^^^ (c.regA + param + (if c.status &&& 1 = 1 then 1 else 0)) % 256) &&&
          (param ^^^ (c.regA + param + (if c.status &&& 1 = 1 then 1 else 0)) % 256) &&&
          128 = 128 then 64 else 0 := by
  unfold CPU.addCarry CPU.updateCBit CPU.updateOFlag CPU.updateZAndNFlags
  dsimp only
  split_ifs <;> simp only [decide_eq_true_eq] at * <;>
    simp only [mask_b6_or128, mask_b6_and127, mask_b6_or2, mask_b6_and253, mask_b6_or64,
      mask_b6_and191] <;>
    first | rfl | contradiction | omega

/-- The source's overflow test is the textbook sign-bit condition: the sign
bits of both operands agree and differ from the sign bit of the result. -/
theorem signCond (a m s : Nat) :
    ((a ^^^ s) &&& (m ^^^ s) &&& 128 = 128) ↔
      (a.testBit 7 = m.testBit 7 ∧ a.testBit 7 ≠ s.testBit 7) := by
  rw [show (128 : Nat) = 2 ^ 7 from by norm_num, and_two_pow_eq_iff]
  rw [Nat.testBit_and, Nat.testBit_xor, Nat.testBit_xor]
  cases h1 : a.testBit 7 <;> cases h2 : m.testBit 7 <;> cases h3 : s.testBit 7 <;> simp

/-- C5.  `ADC` (via `CPU::add_carry`) leaves A equal to the low 8 bits of
`A + M + C`, sets carry iff the unsigned 9-bit sum exceeds 0xFF, and sets
overflow iff the sign bits of A and M match each other but differ from the
sign bit of the result; and the body of `SBC` with operand M is exactly
`add_carry` applied to `M XOR 0xFF`. -/
theorem claim_C5_adc_sbc {μ : Type} (c : CPU μ) (m : Nat) :
    ((c.addCarry m).regA =
      (c.regA + m + (if c.status &&& 1 = 1 then 1 else 0)) % 256)
    ∧ ((c.addCarry m).status &&& 1 = 1 ↔
        c.regA + m + (if c.status &&& 1 = 1 then 1 else 0) > 0xFF)
    ∧ ((c.addCarry m).status &&& 64 = 64 ↔
        (c.regA.testBit 7 = m.testBit 7 ∧
         c.regA.testBit 7 ≠
           ((c.regA + m + (if c.status &&& 1 = 1 then 1 else 0)) % 256).testBit 7))
    ∧ c.sbcBody m = c.addCarry (m ^^^ 0xFF) := by
  refine ⟨addCarry_regA c m, ?_, ?_, rfl⟩
  · rw [addCarry_carry c m]
    split_ifs <;> simp <;> omega
  · rw [addCarry_overflow c m, ← signCond c.regA m
      ((c.regA + m + (if c.status &&& 1 = 1 then 1 else 0)) % 256)]
    split_ifs <;> simp only [Nat.add_zero] at * <;> simp [*]

/-- Model of `NesPPU::tick` never changes the control register. -/
theorem tick_ctrl (p : NesPPU) (n : Nat) : (p.tick n).1.ctrl = p.ctrl := by
  unfold NesPPU.tick
  dsimp only
  split_ifs <;> rfl

/-- With generate-NMI disabled, `NesPPU::tick` never raises the NMI-pending
flag (it can only keep or clear it). -/
theorem tick_trigger (p : NesPPU) (n : Nat) (h : ControlReg.isGenerateNmi p.ctrl = false) :
    (p.tick n).1.triggerNmi = true → p.triggerNmi = true := by
  unfold NesPPU.tick
  dsimp only
  split_ifs <;> simp_all

/-- With generate-NMI disabled, `Bus::tick` never sees a rising NMI edge,
hence never invokes the frame callback. -/
theorem tick_callback_of_no_nmi {μ : Type} (b : Bus μ) (n : Nat)
    (h : ControlReg.isGenerateNmi b.ppu.ctrl = false) :
    (b.tick n).callbackCount = b.callbackCount := by
  unfold Bus.tick
  dsimp only
  have h1 : ControlReg.isGenerateNmi (b.ppu.tick n).1.ctrl = false := by rw [tick_ctrl]; exact h
  have h2 : ControlReg.isGenerateNmi ((b.ppu.tick n).1.tick n).1.ctrl = false := by
    rw [tick_ctrl, tick_ctrl]; exact h
  by_cases hb : b.ppu.triggerNmi
  · simp [hb]
  · have h3 : (((b.ppu.tick n).1.tick n).1.tick n).1.triggerNmi = true → b.ppu.triggerNmi = true := by
      intro hx
      exact tick_trigger _ _ h (tick_trigger _ _ h1 (tick_trigger _ _ h2 hx))
    by_cases hc : (((b.ppu.tick n).1.tick n).1.tick n).1.triggerNmi
    · exact absurd (h3 hc) hb
    · simp [hb, hc]

set_option maxRecDepth 100000 in
/-- C3 (amended).  The bus invokes the frame callback on the rising edge of
the PPU NMI-pending flag, which only occurs when the control register has
generate-NMI set: with the bit clear no tick ever invokes the callback, and
with the bit set a frame of 113-cycle bus ticks invokes it exactly once, at
the tick that crosses scanline 241 (tick 243 here: count 0 after 242 ticks,
1 after 243, still 1 after 300, crossing scanline 241 at that tick). -/
theorem claim_C3_frame_callback_amended :
    (∀ (μ : Type) (b : Bus μ) (n : Nat),
        ControlReg.isGenerateNmi b.ppu.ctrl = false →
        (b.tick n).callbackCount = b.callbackCount)
    ∧ (Bus.runTicks busNmiInit 113 242).callbackCount = 0
    ∧ (Bus.runTicks busNmiInit 113 243).callbackCount = 1
    ∧ (Bus.runTicks busNmiInit 113 243).ppu.scanline = 241
    ∧ (Bus.runTicks busNmiInit 113 300).callbackCount = 1 :=
  ⟨fun _ b n h => tick_callback_of_no_nmi b n h, by decide, by decide, by decide, by decide⟩

set_option maxRecDepth 100000 in
/-- C3 (counterexample).  The claim says the callback fires once per frame
whether or not generate-NMI is set.  With the bit clear (fresh bus), a run
of 300 bus ticks of 113 cycles crosses scanline 241 (at tick 243) and wraps
into the next frame (scanline 36 at tick 300), yet the callback count is
still 0. -/
theorem claim_C3_counterexample :
    (Bus.runTicks busInit 113 243).ppu.scanline = 241
    ∧ (Bus.runTicks busInit 113 300).ppu.scanline = 36
    ∧ (Bus.runTicks busInit 113 300).callbackCount = 0 :=
  ⟨by decide, by decide, by decide⟩

/-- C3 (witness): the no-NMI part of the amended theorem at a concrete bus. -/
theorem claim_C3_witness :
    ControlReg.isGenerateNmi busInit.ppu.ctrl = false
    ∧ (busInit.tick 7).callbackCount = busInit.callbackCount :=
  ⟨by decide, claim_C3_frame_callback_amended.1 Mapper0 busInit 7 (by decide)⟩

/-- The 14-bit mirror mask is reduction modulo 16384. -/
theorem and_16383 (x : Nat) : x &&& 0b11111111111111 = x % 16384 := by
  rw [show (0b11111111111111 : Nat) = 2 ^ 14 - 1 from by norm_num,
    Nat.and_pow_two_sub_one_eq_mod]

/-- Masking to the low byte is reduction modulo 256. -/
theorem and_255 (x : Nat) : x &&& 0xFF = x % 256 := by
  rw [show (0xFF : Nat) = 2 ^ 8 - 1 from by norm_num, Nat.and_pow_two_sub_one_eq_mod]

/-- Masking to six bits is reduction modulo 64. -/
theorem and_63 (x : Nat) : x &&& 0x3F = x % 64 := by
  rw [show (0x3F : Nat) = 2 ^ 6 - 1 from by norm_num, Nat.and_pow_two_sub_one_eq_mod]

/-- An 8-bit right shift is division by 256. -/
theorem shiftRight8 (x : Nat) : x >>> 8 = x / 256 := by
  rw [Nat.shiftRight_eq_div_pow]

/-- Model of `AddrRegister::get` in plain arithmetic, when the low byte is a byte. -/
theorem get_arith (H L : Nat) (b : Bool) (hL : L < 256) :
    (AddrRegister.mk H L b).get = 256 * H + L := by
  unfold AddrRegister.get
  dsimp only
  exact shl_or_eq_add H L hL

/-- Model of `AddrRegister::update` in the first-write (high byte) latch position, in
plain arithmetic. -/
theorem update_hi (r : AddrRegister) (d : Nat) (hp : r.hiPtr = true) (hlo : r.valueLo < 256) :
    r.update d =
      if 256 * d + r.valueLo > 0x3FFF then
        ⟨(256 * d + r.valueLo) % 16384 / 256 % 256, (256 * d + r.valueLo) % 16384 % 256, false⟩
      else
        ⟨d, r.valueLo, false⟩ := by
  unfold AddrRegister.update AddrRegister.get AddrRegister.set
  rw [if_pos hp]
  dsimp only
  rw [shl_or_eq_add d r.valueLo hlo, and_16383, shiftRight8, and_255]
  split_ifs <;> simp [hp]

/-- Model of `AddrRegister::update` in the second-write (low byte) latch position, in
plain arithmetic. -/
theorem update_lo (r : AddrRegister) (d : Nat) (hp : r.hiPtr = false) (hd : d < 256) :
    r.update d =
      if 256 * r.valueHi + d > 0x3FFF then
        ⟨(256 * r.valueHi + d) % 16384 / 256 % 256, (256 * r.valueHi + d) % 16384 % 256, true⟩
      else
        ⟨r.valueHi, d, true⟩ := by
  unfold AddrRegister.update AddrRegister.get AddrRegister.set
  rw [if_neg (show ¬ (r.hiPtr = true) from by simp [hp])]
  dsimp only
  rw [shl_or_eq_add r.valueHi d hd, and_16383, shiftRight8, and_255]
  split_ifs <;> simp [hp]

/-- C6.  With the write latch in the first-write position, two consecutive
0x2006 writes of bytes `first` then `second` leave the VRAM address equal to
`((first & 0x3F) << 8) | second`, and after each of the two updates the
stored address is at most 0x3FFF. -/
theorem claim_C6_addr_update (r : AddrRegister) (first second : Nat)
    (hp : r.hiPtr = true) (hlo : r.valueLo < 256) (h1 : first < 256) (h2 : second < 256) :
    ((r.update first).update second).get = ((first &&& 0x3F) <<< 8) ||| second
    ∧ (r.update first).get ≤ 0x3FFF
    ∧ ((r.update first).update second).get ≤ 0x3FFF := by
  have hmodA : (256 * first + r.valueLo) % 16384 % 256 < 256 := Nat.mod_lt _ (by norm_num)
  rw [update_hi r first hp hlo, and_63, shl_or_eq_add (first % 64) second h2]
  split_ifs with hA
  · rw [update_lo _ second rfl h2]
    dsimp only
    split_ifs with hB
    · exfalso
      omega
    · rw [get_arith _ second _ h2, get_arith _ _ _ hmodA]
      omega
  · rw [update_lo _ second rfl h2]
    dsimp only
    split_ifs with hB
    · exfalso
      omega
    · rw [get_arith first second _ h2, get_arith first r.valueLo _ hlo]
      omega

/-- C6 (witness): the address-register theorem at the concrete pair of
writes 0xC7 then 0x33 — giving VRAM address 0x0733. -/
theorem claim_C6_witness :
    AddrRegister.new.hiPtr = true ∧ AddrRegister.new.valueLo < 256
    ∧ (0xC7 : Nat) < 256 ∧ (0x33 : Nat) < 256
    ∧ (((AddrRegister.new.update 0xC7).update 0x33).get = ((0xC7 &&& 0x3F) <<< 8) ||| 0x33
        ∧ (AddrRegister.new.update 0xC7).get ≤ 0x3FFF
        ∧ ((AddrRegister.new.update 0xC7).update 0x33).get ≤ 0x3FFF) :=
  ⟨rfl, by decide, by decide, by decide,
   claim_C6_addr_update AddrRegister.new 0xC7 0x33 rfl (by decide) (by decide) (by decide)⟩

/-- C7.  The claim says every 0x2007 access with a VRAM address in
0x3F00–0x3FFF lands inside the 32-byte palette RAM, with 0x3F10/0x3F14/
0x3F18/0x3F1C mirrored onto 0x3F00/0x3F04/0x3F08/0x3F0C and no address
faulting.  The code indexes `palette_table[addr - 0x3F00]` with no
mirroring: writing 0x2A at 0x3F10 then reading at 0x3F00 returns 0 (the
stale entry 0x00, not the written byte, which sits in entry 0x10); and any
access at 0x3F20–0x3FFF indexes the 32-byte array out of bounds and panics
(`none`), shown here for a read and a write at 0x3F20. -/
theorem claim_C7_palette_code_bug :
    ((((ppuInit.writeToPpuAddr 0x3F).writeToPpuAddr 0x10).writeToData 0x2A).bind
        (fun p => ((p.writeToPpuAddr 0x3F).writeToPpuAddr 0x00).readData)).map Prod.fst = some 0
    ∧ (((ppuInit.writeToPpuAddr 0x3F).writeToPpuAddr 0x10).writeToData 0x2A).bind
        (fun p => p.paletteTable.get 0x10) = some 0x2A
    ∧ ((ppuInit.writeToPpuAddr 0x3F).writeToPpuAddr 0x20).readData = none
    ∧ ((ppuInit.writeToPpuAddr 0x3F).writeToPpuAddr 0x20).writeToData 0x07 = none :=
  ⟨by rfl, by rfl, by rfl, by rfl⟩

/-- Model of `Mapper1::update_banks` only rewrites the cached modes, mirroring and
offsets: the four internal registers and the shift state pass through
(whenever it does not hit the single-screen-upper panic arm). -/
theorem updateBanks_proj (m : Mapper1) (h : m.control &&& 3 ≠ 1) :
    (m.updateBanks).map
        (fun x => (x.prgBank, x.shiftRegister, x.shiftCount, x.control, x.chrBank0, x.chrBank1)) =
      some (m.prgBank, m.shiftRegister, m.shiftCount, m.control, m.chrBank0, m.chrBank1) := by
  have hle : m.control &&& 3 ≤ 3 := Nat.and_le_right
  have hA : m.control &&& 3 = 0 ∨ m.control &&& 3 = 2 ∨ m.control &&& 3 = 3 := by omega
  have hle2 : (m.control >>> 2) &&& 3 ≤ 3 := Nat.and_le_right
  have hB : (m.control >>> 2) &&& 3 = 0 ∨ (m.control >>> 2) &&& 3 = 1 ∨
      (m.control >>> 2) &&& 3 = 2 ∨ (m.control >>> 2) &&& 3 = 3 := by omega
  have hle3 : (m.control >>> 4) &&& 1 ≤ 1 := Nat.and_le_right
  have hC : (m.control >>> 4) &&& 1 = 0 ∨ (m.control >>> 4) &&& 1 = 1 := by omega
  unfold Mapper1.updateBanks
  rcases hA with h1 | h1 | h1 <;> rcases hB with h2 | h2 | h2 | h2 <;>
    rcases hC with h3 | h3 <;> simp [h1, h2, h3]

/-- A Mapper 1 register write with data bit 7 set resets the shift state and
restores control 0x0C (program-bank-mode 3). -/
theorem mapper1_write_reset (m : Mapper1) (addr data : Nat)
    (h1 : 0x8000 ≤ addr) (h2 : addr ≤ 0xFFFF) (h3 : data &&& 0x80 ≠ 0) :
    (Mapper1.cpuWrite m addr data).map
        (fun x => (x.shiftRegister, x.shiftCount, x.control, x.prgRomBankMode)) =
      some (0, 0, 0x0C, 3) := by
  unfold Mapper1.cpuWrite
  rw [if_neg (show ¬ (0x6000 ≤ addr ∧ addr ≤ 0x7FFF) from by omega),
    if_pos (show 0x8000 ≤ addr ∧ addr ≤ 0xFFFF from ⟨h1, h2⟩), if_pos h3]
  unfold Mapper1.updateBanks
  norm_num
  decide

/-- A non-final Mapper 1 register write shifts the low data bit in from the
top of the 5-bit shift register and increments the write counter. -/
theorem mapper1_write_shift (m : Mapper1) (addr data : Nat)
    (h1 : 0x8000 ≤ addr) (h2 : addr ≤ 0xFFFF) (h3 : data &&& 0x80 = 0)
    (h4 : m.shiftCount + 1 ≠ 5) :
    Mapper1.cpuWrite m addr data =
      some { m with shiftRegister := (m.shiftRegister >>> 1) ||| ((data &&& 1) <<< 4),
                    shiftCount := m.shiftCount + 1 } := by
  unfold Mapper1.cpuWrite
  rw [if_neg (show ¬ (0x6000 ≤ addr ∧ addr ≤ 0x7FFF) from by omega),
    if_pos (show 0x8000 ≤ addr ∧ addr ≤ 0xFFFF from ⟨h1, h2⟩),
    if_neg (show ¬ data &&& 0x80 ≠ 0 from by simp [h3])]
  simp [h4]

/-- The fifth Mapper 1 register write addressed to 0xE000–0xFFFF commits the
5-bit shift value (masked with 0x1F) to the program-bank register and resets
the shift state. -/
theorem mapper1_write_commit_prg (m : Mapper1) (addr data : Nat)
    (h1 : 0xE000 ≤ addr) (h2 : addr ≤ 0xFFFF) (h3 : data &&& 0x80 = 0)
    (h4 : m.shiftCount = 4) (h5 : m.control &&& 3 ≠ 1) :
    (Mapper1.cpuWrite m addr data).map
        (fun x => (x.prgBank, x.shiftRegister, x.shiftCount)) =
      some (((m.shiftRegister >>> 1) ||| ((data &&& 1) <<< 4)) &&& 0x1F, 0, 0) := by
  unfold Mapper1.cpuWrite
  rw [if_neg (show ¬ (0x6000 ≤ addr ∧ addr ≤ 0x7FFF) from by omega),
    if_pos (show 0x8000 ≤ addr ∧ addr ≤ 0xFFFF from ⟨by omega, h2⟩),
    if_neg (show ¬ data &&& 0x80 ≠ 0 from by simp [h3])]
  simp only [h4, show (addr - 0x8000) / 0x2000 = 3 from by omega]
  simp only [if_true, Option.some_bind]
  obtain ⟨y, hy, hyp⟩ := Option.map_eq_some'.mp
    (updateBanks_proj
      { m with shiftRegister := 0, shiftCount := 0,
               prgBank := ((m.shiftRegister >>> 1) ||| ((data &&& 1) <<< 4)) &&& 31 } h5)
  rw [hy]
  simp only [Option.map_some', Prod.mk.injEq] at hyp ⊢
  rw [hyp.1, hyp.2.1, hyp.2.2.1]

/-- The fifth Mapper 1 register write with selector 0 (control) commits the
5-bit shift value there and resets the shift state (the committed control value must not select the unimplemented single-screen-upper mirroring). -/
theorem mapper1_write_commit_control (m : Mapper1) (addr data : Nat)
    (h1 : 0x8000 ≤ addr) (h2 : addr ≤ 0xFFFF) (h3 : data &&& 0x80 = 0)
    (h4 : m.shiftCount = 4) (hidx : (addr - 0x8000) / 0x2000 = 0)
    (h5 : (((m.shiftRegister >>> 1) ||| ((data &&& 1) <<< 4)) &&& 0x1F) &&& 3 ≠ 1) :
    (Mapper1.cpuWrite m addr data).map
        (fun x => (x.shiftRegister, x.shiftCount, x.control, x.chrBank0, x.chrBank1, x.prgBank)) =
      some (0, 0, ((m.shiftRegister >>> 1) ||| ((data &&& 1) <<< 4)) &&& 0x1F, m.chrBank0, m.chrBank1, m.prgBank) := by
  unfold Mapper1.cpuWrite
  rw [if_neg (show ¬ (0x6000 ≤ addr ∧ addr ≤ 0x7FFF) from by omega),
    if_pos (show 0x8000 ≤ addr ∧ addr ≤ 0xFFFF from ⟨h1, h2⟩),
    if_neg (show ¬ data &&& 0x80 ≠ 0 from by simp [h3])]
  simp only [h4, hidx]
  simp only [if_true, Option.some_bind]
  obtain ⟨y, hy, hyp⟩ := Option.map_eq_some'.mp
    (updateBanks_proj
      { m with shiftRegister := 0, shiftCount := 0,
               control := ((m.shiftRegister >>> 1) ||| ((data &&& 1) <<< 4)) &&& 31 } h5)
  rw [hy]
  simp only [Option.map_some', Prod.mk.injEq] at hyp ⊢
  rw [hyp.1, hyp.2.1, hyp.2.2.1, hyp.2.2.2.1, hyp.2.2.2.2.1, hyp.2.2.2.2.2]

/-- The fifth Mapper 1 register write with selector 1 (character-bank-0) commits the
5-bit shift value there and resets the shift state. -/
theorem mapper1_write_commit_chrBank0 (m : Mapper1) (addr data : Nat)
    (h1 : 0x8000 ≤ addr) (h2 : addr ≤ 0xFFFF) (h3 : data &&& 0x80 = 0)
    (h4 : m.shiftCount = 4) (hidx : (addr - 0x8000) / 0x2000 = 1)
    (h5 : m.control &&& 3 ≠ 1) :
    (Mapper1.cpuWrite m addr data).map
        (fun x => (x.shiftRegister, x.shiftCount, x.control, x.chrBank0, x.chrBank1, x.prgBank)) =
      some (0, 0, m.control, ((m.shiftRegister >>> 1) ||| ((data &&& 1) <<< 4)) &&& 0x1F, m.chrBank1, m.prgBank) := by
  unfold Mapper1.cpuWrite
  rw [if_neg (show ¬ (0x6000 ≤ addr ∧ addr ≤ 0x7FFF) from by omega),
    if_pos (show 0x8000 ≤ addr ∧ addr ≤ 0xFFFF from ⟨h1, h2⟩),
    if_neg (show ¬ data &&& 0x80 ≠ 0 from by simp [h3])]
  simp only [h4, hidx]
  simp only [if_true, Option.some_bind]
  obtain ⟨y, hy, hyp⟩ := Option.map_eq_some'.mp
    (updateBanks_proj
      { m with shiftRegister := 0, shiftCount := 0,
               chrBank0 := ((m.shiftRegister >>> 1) ||| ((data &&& 1) <<< 4)) &&& 31 } h5)
  rw [hy]
  simp only [Option.map_some', Prod.mk.injEq] at hyp ⊢
  rw [hyp.1, hyp.2.1, hyp.2.2.1, hyp.2.2.2.1, hyp.2.2.2.2.1, hyp.2.2.2.2.2]

/-- The fifth Mapper 1 register write with selector 2 (character-bank-1) commits the
5-bit shift value there and resets the shift state. -/
theorem mapper1_write_commit_chrBank1 (m : Mapper1) (addr data : Nat)
    (h1 : 0x8000 ≤ addr) (h2 : addr ≤ 0xFFFF) (h3 : data &&& 0x80 = 0)
    (h4 : m.shiftCount = 4) (hidx : (addr - 0x8000) / 0x2000 = 2)
    (h5 : m.control &&& 3 ≠ 1) :
    (Mapper1.cpuWrite m addr data).map
        (fun x => (x.shiftRegister, x.shiftCount, x.control, x.chrBank0, x.chrBank1, x.prgBank)) =
      some (0, 0, m.control, m.chrBank0, ((m.shiftRegister >>> 1) ||| ((data &&& 1) <<< 4)) &&& 0x1F, m.prgBank) := by
  unfold Mapper1.cpuWrite
  rw [if_neg (show ¬ (0x6000 ≤ addr ∧ addr ≤ 0x7FFF) from by omega),
    if_pos (show 0x8000 ≤ addr ∧ addr ≤ 0xFFFF from ⟨h1, h2⟩),
    if_neg (show ¬ data &&& 0x80 ≠ 0 from by simp [h3])]
  simp only [h4, hidx]
  simp only [if_true, Option.some_bind]
  obtain ⟨y, hy, hyp⟩ := Option.map_eq_some'.mp
    (updateBanks_proj
      { m with shiftRegister := 0, shiftCount := 0,
               chrBank1 := ((m.shiftRegister >>> 1) ||| ((data &&& 1) <<< 4)) &&& 31 } h5)
  rw [hy]
  simp only [Option.map_some', Prod.mk.injEq] at hyp ⊢
  rw [hyp.1, hyp.2.1, hyp.2.2.1, hyp.2.2.2.1, hyp.2.2.2.2.1, hyp.2.2.2.2.2]

/-- The fifth Mapper 1 register write with selector 3 (program-bank) commits the
5-bit shift value there and resets the shift state. -/
theorem mapper1_write_commit_prgBank (m : Mapper1) (addr data : Nat)
    (h1 : 0x8000 ≤ addr) (h2 : addr ≤ 0xFFFF) (h3 : data &&& 0x80 = 0)
    (h4 : m.shiftCount = 4) (hidx : (addr - 0x8000) / 0x2000 = 3)
    (h5 : m.control &&& 3 ≠ 1) :
    (Mapper1.cpuWrite m addr data).map
        (fun x => (x.shiftRegister, x.shiftCount, x.control, x.chrBank0, x.chrBank1, x.prgBank)) =
      some (0, 0, m.control, m.chrBank0, m.chrBank1, ((m.shiftRegister >>> 1) ||| ((data &&& 1) <<< 4)) &&& 0x1F) := by
  unfold Mapper1.cpuWrite
  rw [if_neg (show ¬ (0x6000 ≤ addr ∧ addr ≤ 0x7FFF) from by omega),
    if_pos (show 0x8000 ≤ addr ∧ addr ≤ 0xFFFF from ⟨h1, h2⟩),
    if_neg (show ¬ data &&& 0x80 ≠ 0 from by simp [h3])]
  simp only [h4, hidx]
  simp only [if_true, Option.some_bind]
  obtain ⟨y, hy, hyp⟩ := Option.map_eq_some'.mp
    (updateBanks_proj
      { m with shiftRegister := 0, shiftCount := 0,
               prgBank := ((m.shiftRegister >>> 1) ||| ((data &&& 1) <<< 4)) &&& 31 } h5)
  rw [hy]
  simp only [Option.map_some', Prod.mk.injEq] at hyp ⊢
  rw [hyp.1, hyp.2.1, hyp.2.2.1, hyp.2.2.2.1, hyp.2.2.2.2.1, hyp.2.2.2.2.2]

/-- A bit value never has bit 7 set. -/
theorem small_and_128 (b : Nat) (h : b ≤ 1) : b &&& 0x80 = 0 := by
  interval_cases b <;> decide

/-- Five serial shifts of bits b0..b4 build the 5-bit value b4 b3 b2 b1 b0. -/
theorem shift_five_bits (b0 b1 b2 b3 b4 : Nat)
    (h0 : b0 ≤ 1) (h1 : b1 ≤ 1) (h2 : b2 ≤ 1) (h3 : b3 ≤ 1) (h4 : b4 ≤ 1) :
    (((((((((0 : Nat) >>> 1 ||| (b0 &&& 1) <<< 4) >>> 1) ||| (b1 &&& 1) <<< 4) >>> 1) |||
        (b2 &&& 1) <<< 4) >>> 1 ||| (b3 &&& 1) <<< 4) >>> 1) ||| (b4 &&& 1) <<< 4) &&& 0x1F =
      b0 + 2 * b1 + 4 * b2 + 8 * b3 + 16 * b4 := by
  interval_cases b0 <;> interval_cases b1 <;> interval_cases b2 <;>
    interval_cases b3 <;> interval_cases b4 <;> decide

/-- Starting from a cleared shift register, five bit-writes to the
program-bank selector (0xE000–0xFFFF on the fifth write) leave the cached
program bank holding the 5-bit value (b4 b3 b2 b1 b0), with the shift state
reset. -/
theorem mapper1_five_writes (m : Mapper1) (a1 a2 a3 a4 a5 b0 b1 b2 b3 b4 : Nat)
    (hs : m.shiftRegister = 0) (hc : m.shiftCount = 0) (hctl : m.control &&& 3 ≠ 1)
    (ha1 : 0x8000 ≤ a1) (ha1b : a1 ≤ 0xFFFF) (ha2 : 0x8000 ≤ a2) (ha2b : a2 ≤ 0xFFFF)
    (ha3 : 0x8000 ≤ a3) (ha3b : a3 ≤ 0xFFFF) (ha4 : 0x8000 ≤ a4) (ha4b : a4 ≤ 0xFFFF)
    (ha5 : 0xE000 ≤ a5) (ha5b : a5 ≤ 0xFFFF)
    (hb0 : b0 ≤ 1) (hb1 : b1 ≤ 1) (hb2 : b2 ≤ 1) (hb3 : b3 ≤ 1) (hb4 : b4 ≤ 1) :
    (((((Mapper1.cpuWrite m a1 b0).bind fun x => Mapper1.cpuWrite x a2 b1).bind
        fun x => Mapper1.cpuWrite x a3 b2).bind fun x => Mapper1.cpuWrite x a4 b3).bind
        fun x => Mapper1.cpuWrite x a5 b4).map
          (fun x => (x.prgBank, x.shiftRegister, x.shiftCount)) =
      some (b0 + 2 * b1 + 4 * b2 + 8 * b3 + 16 * b4, 0, 0) := by
  rw [mapper1_write_shift m a1 b0 ha1 ha1b (small_and_128 b0 hb0) (by omega)]
  simp only [Option.some_bind]
  rw [hs, hc]
  rw [mapper1_write_shift _ a2 b1 ha2 ha2b (small_and_128 b1 hb1) (by norm_num)]
  simp only [Option.some_bind]
  rw [mapper1_write_shift _ a3 b2 ha3 ha3b (small_and_128 b2 hb2) (by norm_num)]
  simp only [Option.some_bind]
  rw [mapper1_write_shift _ a4 b3 ha4 ha4b (small_and_128 b3 hb3) (by norm_num)]
  simp only [Option.some_bind]
  rw [mapper1_write_commit_prg _ a5 b4 ha5 ha5b (small_and_128 b4 hb4) (by norm_num)
    (by dsimp only; exact hctl)]
  rw [shift_five_bits b0 b1 b2 b3 b4 hb0 hb1 hb2 hb3 hb4]

/-- C9.  Mapper 1 register writes in 0x8000–0xFFFF: a write with data bit 7
set resets the shift register and counter and restores control 0x0C
(program-bank-mode 3); otherwise the write shifts the low data bit in from
the top (`shift = (shift >> 1) | ((data & 1) << 4)`) and increments the
counter; the fifth such write commits the 5-bit value (masked with 0x1F) to
the internal register selected by `(addr - 0x8000) >> 13` (written
`/ 0x2000` in the source): 0 = control, 1 = character-bank-0,
2 = character-bank-1, 3 = program-bank, resetting the shift state; and five
bit-writes b0..b4 whose fifth lands in the program-bank selector leave the
cached program bank equal to the 5-bit value (b4 b3 b2 b1 b0) & 0x1F. -/
theorem claim_C9_mapper1_serial :
    (∀ (m : Mapper1) (addr data : Nat), 0x8000 ≤ addr → addr ≤ 0xFFFF →
      data &&& 0x80 ≠ 0 →
      (Mapper1.cpuWrite m addr data).map
          (fun x => (x.shiftRegister, x.shiftCount, x.control, x.prgRomBankMode)) =
        some (0, 0, 0x0C, 3))
    ∧ (∀ (m : Mapper1) (addr data : Nat), 0x8000 ≤ addr → addr ≤ 0xFFFF →
        data &&& 0x80 = 0 → m.shiftCount + 1 ≠ 5 →
        Mapper1.cpuWrite m addr data =
          some { m with shiftRegister := (m.shiftRegister >>> 1) ||| ((data &&& 1) <<< 4),
                        shiftCount := m.shiftCount + 1 })
    ∧ (∀ (m : Mapper1) (addr data : Nat), 0x8000 ≤ addr → addr ≤ 0xFFFF →
        data &&& 0x80 = 0 → m.shiftCount = 4 → (addr - 0x8000) / 0x2000 = 0 →
        (((m.shiftRegister >>> 1) ||| ((data &&& 1) <<< 4)) &&& 0x1F) &&& 3 ≠ 1 →
        (Mapper1.cpuWrite m addr data).map
            (fun x => (x.shiftRegister, x.shiftCount, x.control, x.chrBank0, x.chrBank1, x.prgBank)) =
          some (0, 0, ((m.shiftRegister >>> 1) ||| ((data &&& 1) <<< 4)) &&& 0x1F, m.chrBank0, m.chrBank1, m.prgBank))
    ∧ (∀ (m : Mapper1) (addr data : Nat), 0x8000 ≤ addr → addr ≤ 0xFFFF →
        data &&& 0x80 = 0 → m.shiftCount = 4 → (addr - 0x8000) / 0x2000 = 1 →
        m.control &&& 3 ≠ 1 →
        (Mapper1.cpuWrite m addr data).map
            (fun x => (x.shiftRegister, x.shiftCount, x.control, x.chrBank0, x.chrBank1, x.prgBank)) =
          some (0, 0, m.control, ((m.shiftRegister >>> 1) ||| ((data &&& 1) <<< 4)) &&& 0x1F, m.chrBank1, m.prgBank))
    ∧ (∀ (m : Mapper1) (addr data : Nat), 0x8000 ≤ addr → addr ≤ 0xFFFF →
        data &&& 0x80 = 0 → m.shiftCount = 4 → (addr - 0x8000) / 0x2000 = 2 →
        m.control &&& 3 ≠ 1 →
        (Mapper1.cpuWrite m addr data).map
            (fun x => (x.shiftRegister, x.shiftCount, x.control, x.chrBank0, x.chrBank1, x.prgBank)) =
          some (0, 0, m.control, m.chrBank0, ((m.shiftRegister >>> 1) ||| ((data &&& 1) <<< 4)) &&& 0x1F, m.prgBank))
    ∧ (∀ (m : Mapper1) (addr data : Nat), 0x8000 ≤ addr → addr ≤ 0xFFFF →
        data &&& 0x80 = 0 → m.shiftCount = 4 → (addr - 0x8000) / 0x2000 = 3 →
        m.control &&& 3 ≠ 1 →
        (Mapper1.cpuWrite m addr data).map
            (fun x => (x.shiftRegister, x.shiftCount, x.control, x.chrBank0, x.chrBank1, x.prgBank)) =
          some (0, 0, m.control, m.chrBank0, m.chrBank1, ((m.shiftRegister >>> 1) ||| ((data &&& 1) <<< 4)) &&& 0x1F))
    ∧ (∀ (m : Mapper1) (a1 a2 a3 a4 a5 b0 b1 b2 b3 b4 : Nat),
        m.shiftRegister = 0 → m.shiftCount = 0 → m.control &&& 3 ≠ 1 →
        0x8000 ≤ a1 → a1 ≤ 0xFFFF → 0x8000 ≤ a2 → a2 ≤ 0xFFFF →
        0x8000 ≤ a3 → a3 ≤ 0xFFFF → 0x8000 ≤ a4 → a4 ≤ 0xFFFF →
        0xE000 ≤ a5 → a5 ≤ 0xFFFF →
        b0 ≤ 1 → b1 ≤ 1 → b2 ≤ 1 → b3 ≤ 1 → b4 ≤ 1 →
        (((((Mapper1.cpuWrite m a1 b0).bind fun x => Mapper1.cpuWrite x a2 b1).bind
            fun x => Mapper1.cpuWrite x a3 b2).bind fun x => Mapper1.cpuWrite x a4 b3).bind
            fun x => Mapper1.cpuWrite x a5 b4).map
              (fun x => (x.prgBank, x.shiftRegister, x.shiftCount)) =
          some (b0 + 2 * b1 + 4 * b2 + 8 * b3 + 16 * b4, 0, 0)) :=
  ⟨fun m addr data h1 h2 h3 => mapper1_write_reset m addr data h1 h2 h3,
   fun m addr data h1 h2 h3 h4 => mapper1_write_shift m addr data h1 h2 h3 h4,
   fun m addr data h1 h2 h3 h4 hidx h5 =>
     mapper1_write_commit_control m addr data h1 h2 h3 h4 hidx h5,
   fun m addr data h1 h2 h3 h4 hidx h5 =>
     mapper1_write_commit_chrBank0 m addr data h1 h2 h3 h4 hidx h5,
   fun m addr data h1 h2 h3 h4 hidx h5 =>
     mapper1_write_commit_chrBank1 m addr data h1 h2 h3 h4 hidx h5,
   fun m addr data h1 h2 h3 h4 hidx h5 =>
     mapper1_write_commit_prgBank m addr data h1 h2 h3 h4 hidx h5,
   fun m a1 a2 a3 a4 a5 b0 b1 b2 b3 b4 hs hc hctl ha1 ha1b ha2 ha2b ha3 ha3b ha4 ha4b
       ha5 ha5b hb0 hb1 hb2 hb3 hb4 =>
     mapper1_five_writes m a1 a2 a3 a4 a5 b0 b1 b2 b3 b4 hs hc hctl ha1 ha1b ha2 ha2b
       ha3 ha3b ha4 ha4b ha5 ha5b hb0 hb1 hb2 hb3 hb4⟩

/-- C9 (witness): the five-write part at the concrete cartridge, writing the
bits 1,0,1,1,0 to 0xE000 — the cached program bank becomes 13. -/
theorem claim_C9_witness :
    mapper1Init.shiftRegister = 0 ∧ mapper1Init.shiftCount = 0
    ∧ mapper1Init.control &&& 3 ≠ 1
    ∧ (((((Mapper1.cpuWrite mapper1Init 0xE000 1).bind
          fun x => Mapper1.cpuWrite x 0xE000 0).bind
          fun x => Mapper1.cpuWrite x 0xE000 1).bind
          fun x => Mapper1.cpuWrite x 0xE000 1).bind
          fun x => Mapper1.cpuWrite x 0xE000 0).map
            (fun x => (x.prgBank, x.shiftRegister, x.shiftCount)) =
        some (1 + 2 * 0 + 4 * 1 + 8 * 1 + 16 * 0, 0, 0) :=
  ⟨rfl, rfl, by decide,
   claim_C9_mapper1_serial.2.2.2.2.2.2 mapper1Init 0xE000 0xE000 0xE000 0xE000 0xE000
     1 0 1 1 0 rfl rfl (by decide) (by decide) (by decide) (by decide) (by decide)
     (by decide) (by decide) (by decide) (by decide) (by decide) (by decide) (by decide)
     (by decide) (by decide) (by decide) (by decide)⟩

/-- C10.  For Mapper 0 with a 16 KiB program ROM, every CPU read in
0x8000–0xFFFF equals the read at 0x8000 + ((A - 0x8000) mod 0x4000):
0xC000–0xFFFF mirrors 0x8000–0xBFFF. -/
theorem claim_C10_mapper0_mirror (m : Mapper0) (A : Nat)
    (hlen : m.prgRom.size = 0x4000) (h1 : 0x8000 ≤ A) (h2 : A ≤ 0xFFFF) :
    Mapper0.cpuRead m A = Mapper0.cpuRead m (0x8000 + (A - 0x8000) % 0x4000) := by
  have hmod : (A - 0x8000) % 0x4000 < 0x4000 := Nat.mod_lt _ (by norm_num)
  unfold Mapper0.cpuRead
  rw [if_neg (show ¬ (0x6000 ≤ A ∧ A ≤ 0x7FFF) from by omega),
    if_pos (show 0x8000 ≤ A ∧ A ≤ 0xFFFF from ⟨h1, h2⟩),
    if_neg (show ¬ (0x6000 ≤ 0x8000 + (A - 0x8000) % 0x4000 ∧
      0x8000 + (A - 0x8000) % 0x4000 ≤ 0x7FFF) from by omega),
    if_pos (show 0x8000 ≤ 0x8000 + (A - 0x8000) % 0x4000 ∧
      0x8000 + (A - 0x8000) % 0x4000 ≤ 0xFFFF from by constructor <;> omega)]
  dsimp only
  split_ifs with hA hB hB <;> (apply congrArg; omega)

/-- C10 (witness): the mirror theorem at the concrete test cartridge and
address 0xC123, which mirrors 0x8123. -/
theorem claim_C10_witness :
    mapper0Init.prgRom.size = 0x4000 ∧ (0x8000 : Nat) ≤ 0xC123 ∧ (0xC123 : Nat) ≤ 0xFFFF
    ∧ Mapper0.cpuRead mapper0Init 0xC123 =
        Mapper0.cpuRead mapper0Init (0x8000 + (0xC123 - 0x8000) % 0x4000) :=
  ⟨rfl, by decide, by decide,
   claim_C10_mapper0_mirror mapper0Init 0xC123 rfl (by decide) (by decide)⟩

end Nes
